import Mathlib

/-!
Verification development for the `ha-dyson` Home Assistant integration.

Each definition below is a shallow embedding of a function or code path of
the repository, translated directly from the Python source files named in
its doc comment.  Theorems at the end of the file settle the specification
claims against these definitions.
-/

namespace DysonLocal

/-! Device-type constants, from `custom_components/dyson_local/vendor/libdyson/const.py`. -/

def DEVICE_TYPE_360_EYE : String := "N223"
def DEVICE_TYPE_360_HEURIST : String := "276"
def DEVICE_TYPE_360_VIS_NAV : String := "277"
def DEVICE_TYPE_PURE_COOL_LINK_DESK : String := "469"
def DEVICE_TYPE_PURE_COOL_DESK : String := "520"
def DEVICE_TYPE_PURE_COOL_LINK : String := "475"
def DEVICE_TYPE_PURE_COOL : String := "438"
def DEVICE_TYPE_PURIFIER_COOL_K : String := "438K"
def DEVICE_TYPE_PURIFIER_COOL_E : String := "438E"
def DEVICE_TYPE_PURIFIER_COOL_M : String := "438M"
def DEVICE_TYPE_PURE_HUMIDIFY_COOL : String := "358"
def DEVICE_TYPE_PURIFIER_HUMIDIFY_COOL_K : String := "358K"
def DEVICE_TYPE_PURIFIER_HUMIDIFY_COOL_E : String := "358E"
def DEVICE_TYPE_PURE_HOT_COOL_LINK : String := "455"
def DEVICE_TYPE_PURE_HOT_COOL : String := "527"
def DEVICE_TYPE_PURIFIER_HOT_COOL_E : String := "527E"
def DEVICE_TYPE_PURIFIER_HOT_COOL_K : String := "527K"
def DEVICE_TYPE_PURIFIER_HOT_COOL_M : String := "527M"
def DEVICE_TYPE_PURIFIER_BIG_QUIET : String := "664"

/-- Environmental sentinel raw values, `const.py` lines 150-152. -/
def ENVIRONMENTAL_OFF : Int := -1

def ENVIRONMENTAL_INIT : Int := -2

def ENVIRONMENTAL_FAIL : Int := -3

/-- Message kinds, `const.py` class `MessageType`. -/
inductive MessageType where
  | STATE
  | ENVIRONMENTAL
deriving DecidableEq, Repr

/-! Environmental status derivation, from `custom_components/dyson_local/utils.py`.
`STATE_OFF` is imported there from `homeassistant.const` where it is the string
`"off"`; `STATE_INIT` and `STATE_FAIL` are defined in `utils.py` itself. -/

def STATE_OFF : String := "off"

def STATE_INIT : String := "init"

def STATE_FAIL : String := "fail"

/-- Result of reading an environmental property: either a derived status string
(for sentinel raw values) or the raw numeric value unchanged. -/
inductive EnvReading where
  | status (s : String)
  | value (v : Int)
deriving DecidableEq, Repr

/-- `utils.py` lines 19-31: `environmental_property.__get__` maps the sentinel
raw values to the status strings and returns every other value unchanged. -/
def environmental_property_get (value : Int) : EnvReading :=
  if value = ENVIRONMENTAL_OFF then .status STATE_OFF
  else if value = ENVIRONMENTAL_INIT then .status STATE_INIT
  else if value = ENVIRONMENTAL_FAIL then .status STATE_FAIL
  else .value value

/-! Device factory, from `custom_components/dyson_local/vendor/libdyson/__init__.py`. -/

/-- A constructed device object: one constructor per `DysonDevice` subtype that
`_create_device_static` can instantiate, carrying exactly the constructor
arguments the Python code passes (the vacuum constructors take no
`device_type` argument). -/
inductive DysonDeviceObj where
  | Dyson360Eye (serial credential : String)
  | Dyson360Heurist (serial credential : String)
  | Dyson360VisNav (serial credential : String)
  | DysonPureCoolLink (serial credential device_type : String)
  | DysonPureHotCoolLink (serial credential device_type : String)
  | DysonBasicPurifierFanWithOscillation (serial credential device_type : String)
  | DysonPureCool (serial credential device_type : String)
  | DysonPureHotCool (serial credential device_type : String)
  | DysonPurifierHumidifyCool (serial credential device_type : String)
  | DysonBigQuiet (serial credential device_type : String)
deriving DecidableEq, Repr

/-- The subtype tag of a constructed device, forgetting constructor arguments. -/
inductive DeviceSubtype where
  | eye
  | heurist
  | visNav
  | pureCoolLink
  | pureHotCoolLink
  | basicPurifierFanWithOscillation
  | pureCool
  | pureHotCool
  | purifierHumidifyCool
  | bigQuiet
deriving DecidableEq, Repr

def subtypeOf : DysonDeviceObj → DeviceSubtype
  | .Dyson360Eye _ _ => .eye
  | .Dyson360Heurist _ _ => .heurist
  | .Dyson360VisNav _ _ => .visNav
  | .DysonPureCoolLink _ _ _ => .pureCoolLink
  | .DysonPureHotCoolLink _ _ _ => .pureHotCoolLink
  | .DysonBasicPurifierFanWithOscillation _ _ _ => .basicPurifierFanWithOscillation
  | .DysonPureCool _ _ _ => .pureCool
  | .DysonPureHotCool _ _ _ => .pureHotCool
  | .DysonPurifierHumidifyCool _ _ _ => .purifierHumidifyCool
  | .DysonBigQuiet _ _ _ => .bigQuiet

/-- `__init__.py` lines 106-194: `_create_device_static`, the static
device-type to subtype mapping; branch order and membership lists follow the
source. -/
def create_device_static (serial credential device_type : String) :
    Option DysonDeviceObj :=
  if device_type = DEVICE_TYPE_360_EYE then
    some (.Dyson360Eye serial credential)
  else if device_type = DEVICE_TYPE_360_HEURIST then
    some (.Dyson360Heurist serial credential)
  else if device_type = DEVICE_TYPE_360_VIS_NAV then
    some (.Dyson360VisNav serial credential)
  else if device_type = DEVICE_TYPE_PURE_COOL_LINK_DESK ∨
      device_type = DEVICE_TYPE_PURE_COOL_LINK then
    some (.DysonPureCoolLink serial credential device_type)
  else if device_type = DEVICE_TYPE_PURE_HOT_COOL_LINK then
    some (.DysonPureHotCoolLink serial credential device_type)
  else if device_type = DEVICE_TYPE_PURE_COOL ∨
      device_type = DEVICE_TYPE_PURIFIER_COOL_K ∨
      device_type = DEVICE_TYPE_PURIFIER_COOL_E ∨
      device_type = DEVICE_TYPE_PURIFIER_COOL_M then
    some (.DysonBasicPurifierFanWithOscillation serial credential device_type)
  else if device_type = DEVICE_TYPE_PURE_COOL_DESK then
    some (.DysonPureCool serial credential device_type)
  else if device_type = DEVICE_TYPE_PURE_HOT_COOL ∨
      device_type = DEVICE_TYPE_PURIFIER_HOT_COOL_E ∨
      device_type = DEVICE_TYPE_PURIFIER_HOT_COOL_K ∨
      device_type = DEVICE_TYPE_PURIFIER_HOT_COOL_M then
    some (.DysonPureHotCool serial credential device_type)
  else if device_type = DEVICE_TYPE_PURE_HUMIDIFY_COOL ∨
      device_type = DEVICE_TYPE_PURIFIER_HUMIDIFY_COOL_K ∨
      device_type = DEVICE_TYPE_PURIFIER_HUMIDIFY_COOL_E then
    some (.DysonPurifierHumidifyCool serial credential device_type)
  else if device_type = DEVICE_TYPE_PURIFIER_BIG_QUIET then
    some (.DysonBigQuiet serial credential device_type)
  else
    none

/-- Outcome of a call to `get_device_with_capability_discovery` (defined in
`libdyson/dynamic_device_factory.py`): it may return a device, return `None`,
or raise an exception.  `get_device` is parameterised over this outcome, since
its branching (lines 53-103 of `__init__.py`) only inspects which of the three
cases occurred. -/
inductive DiscoveryOutcome where
  | found (d : DysonDeviceObj)
  | noDevice
  | raised (msg : String)
deriving DecidableEq, Repr

/-- `__init__.py` lines 53-103: `get_device`.  Vacuum-robot device types go
straight to the static mapping; every other device type tries capability
discovery first and falls back to the static mapping when discovery returns
no device or raises. -/
def get_device (disc : DiscoveryOutcome)
    (serial credential device_type : String) : Option DysonDeviceObj :=
  if device_type = DEVICE_TYPE_360_EYE ∨
      device_type = DEVICE_TYPE_360_HEURIST ∨
      device_type = DEVICE_TYPE_360_VIS_NAV then
    create_device_static serial credential device_type
  else
    match disc with
    | .found d => some d
    | .noDevice => create_device_static serial credential device_type
    | .raised _ => create_device_static serial credential device_type

/-- The set of device-type strings that occur in some branch of
`_create_device_static` (the union of all membership tests, lines 127-180). -/
def staticMappedTypes : List String :=
  [DEVICE_TYPE_360_EYE, DEVICE_TYPE_360_HEURIST, DEVICE_TYPE_360_VIS_NAV,
   DEVICE_TYPE_PURE_COOL_LINK_DESK, DEVICE_TYPE_PURE_COOL_LINK,
   DEVICE_TYPE_PURE_HOT_COOL_LINK,
   DEVICE_TYPE_PURE_COOL, DEVICE_TYPE_PURIFIER_COOL_K,
   DEVICE_TYPE_PURIFIER_COOL_E, DEVICE_TYPE_PURIFIER_COOL_M,
   DEVICE_TYPE_PURE_COOL_DESK,
   DEVICE_TYPE_PURE_HOT_COOL, DEVICE_TYPE_PURIFIER_HOT_COOL_E,
   DEVICE_TYPE_PURIFIER_HOT_COOL_K, DEVICE_TYPE_PURIFIER_HOT_COOL_M,
   DEVICE_TYPE_PURE_HUMIDIFY_COOL, DEVICE_TYPE_PURIFIER_HUMIDIFY_COOL_K,
   DEVICE_TYPE_PURIFIER_HUMIDIFY_COOL_E,
   DEVICE_TYPE_PURIFIER_BIG_QUIET]

/-! Sensor platform, from `custom_components/dyson_local/sensor.py` and
`custom_components/dyson_local/const.py`. -/

/-- `const.py` lines 24-26. -/
def PURE_COOL_LINK_FILTER_LIFE_MAX_HOURS : Int := 4300

/-- One constructor per sensor entity class that `async_setup_entry` can add. -/
inductive SensorKind where
  | battery
  | humidity
  | temperature
  | voc
  | filterLifeHours
  | filterLifePercentage
  | particulates
  | carbonDioxide
  | pm25
  | pm10
  | no2
  | combinedFilterLife
  | carbonFilterLife
  | hepaFilterLife
  | nextDeepClean
  | hcho
deriving DecidableEq, Repr

/-- The runtime facts about a device that `async_setup_entry` in `sensor.py`
inspects: `isinstance` checks against device classes and `hasattr` /
`is not None` probes of capability attributes. -/
structure SensorDevice where
  is360Vacuum : Bool
  isPureCoolLink : Bool
  isBigQuiet : Bool
  isBasicPurifierFan : Bool
  isPurifierHumidifyCool : Bool
  hasHumidity : Bool
  hasTemperature : Bool
  hasVoc : Bool
  hasCarbonDioxide : Bool
  carbonDioxideSome : Bool
  hasPM25 : Bool
  hasPM10 : Bool
  hasNO2 : Bool
  carbonFilterLifeIsNone : Bool
  hasFormaldehyde : Bool
  formaldehydeSome : Bool
deriving DecidableEq, Repr

/-- `sensor.py` lines 42-107: the list of sensor entities `async_setup_entry`
adds for a device, in source order. -/
def sensorEntities (d : SensorDevice) : List SensorKind :=
  if d.is360Vacuum then [.battery]
  else
    ((if d.hasHumidity then [.humidity] else []) ++
     (if d.hasTemperature then [.temperature] else []) ++
     (if d.hasVoc then [.voc] else [])) ++
    (if d.isPureCoolLink then
      [.filterLifeHours, .filterLifePercentage, .particulates]
     else
      (if d.isBigQuiet && d.hasCarbonDioxide && d.carbonDioxideSome then
        [.carbonDioxide] else []) ++
      (if d.isBasicPurifierFan || d.hasPM25 then [.pm25] else []) ++
      (if d.isBasicPurifierFan || d.hasPM10 then [.pm10] else []) ++
      (if d.hasNO2 then [.no2] else []) ++
      (if d.carbonFilterLifeIsNone then [.combinedFilterLife]
       else [.carbonFilterLife, .hepaFilterLife])) ++
    ((if d.isPurifierHumidifyCool then [.nextDeepClean] else []) ++
     (if d.hasFormaldehyde && d.formaldehydeSome then [.hcho] else []))

/-- `sensor.py` lines 181-184: `DysonFilterLifeSensor.native_value`, the raw
filter life in hours. -/
def filterLifeSensorValue (filter_life : ℚ) : ℚ := filter_life

/-- `sensor.py` lines 197-200: `DysonFilterLifeSensorPercentage.native_value`,
`(filter_life / 4300) * 100`. -/
def filterLifePercentageValue (filter_life : ℚ) : ℚ :=
  (filter_life / 4300) * 100

/-- `sensor.py` lines 301-310: `DysonTemperatureSensor.native_value`, Celsius
from the internally-Kelvin reading, `None` for negative (sentinel) readings. -/
def temperatureSensorValue (temperature : ℚ) : Option ℚ :=
  if temperature ≥ 0 then some (temperature - 273.15) else none

/-! Entity message dispatch, from `custom_components/dyson_local/entity.py`. -/

/-- `entity.py` lines 49-51: `DysonEntity._on_message` schedules a Home
Assistant state update exactly when the `_MESSAGE_TYPE` of the entity is
`None` or equals the type of the incoming message.  Returns whether an update
is scheduled. -/
def onMessageSchedules (entityMessageType : Option MessageType)
    (message_type : MessageType) : Bool :=
  match entityMessageType with
  | none => true
  | some t => message_type = t

/-- `entity.py` line 23: the base class `_MESSAGE_TYPE`. -/
def DysonEntityMessageType : Option MessageType := some .STATE

/-- `sensor.py` line 113: `DysonSensor._MESSAGE_TYPE`. -/
def DysonSensorMessageType : Option MessageType := some .STATE

/-- `sensor.py` line 135: `DysonSensorEnvironmental._MESSAGE_TYPE`. -/
def DysonSensorEnvironmentalMessageType : Option MessageType :=
  some .ENVIRONMENTAL

/-! Discovery manager, from
`custom_components/dyson_local/discovery_manager.py`.  The relevant shared
state is `hass.data[DOMAIN]["discovery_count"]` (a Python `int`, modelled as
`Int`) and whether `hass.data[DOMAIN][DATA_DISCOVERY]` holds a running
discovery service (`serviceRunning`). -/

structure DiscoveryState where
  count : Int
  serviceRunning : Bool
deriving DecidableEq, Repr

/-- `discovery_manager.py` lines 75-93: `_ensure_discovery_service` starts the
shared listener when none is stored. -/
def ensure_discovery_service (s : DiscoveryState) : DiscoveryState :=
  if s.serviceRunning then s else { s with serviceRunning := true }

/-- `discovery_manager.py` lines 108-115: `_increment_discovery_count` (a
missing key is initialised to 0 first, so the model keeps just the `+ 1`). -/
def increment_discovery_count (s : DiscoveryState) : DiscoveryState :=
  { s with count := s.count + 1 }

/-- `discovery_manager.py` lines 117-125: `_decrement_discovery_count`, which
clamps at 0 via `max(0, count - 1)`. -/
def decrement_discovery_count (s : DiscoveryState) : DiscoveryState :=
  { s with count := max 0 (s.count - 1) }

/-- `discovery_manager.py` lines 150-160: `_stop_discovery_service` stops the
listener, clears the stored service and resets the count to 0. -/
def stop_discovery_service (_s : DiscoveryState) : DiscoveryState :=
  { count := 0, serviceRunning := false }

/-- `discovery_manager.py` lines 30-54: the effect of `connect_with_discovery`
on the shared counter and listener (ensure the service, then increment the
usage count; device registration does not touch either). -/
def connect_with_discovery (s : DiscoveryState) : DiscoveryState :=
  increment_discovery_count (ensure_discovery_service s)

/-- `discovery_manager.py` lines 56-73: `handle_unload_cleanup` decrements the
count, then stops the service only when a service is stored and the count has
dropped to 0 or below. -/
def handle_unload_cleanup (s : DiscoveryState) : DiscoveryState :=
  let s1 := decrement_discovery_count s
  if s1.serviceRunning then
    if s1.count ≤ 0 then stop_discovery_service s1 else s1
  else s1

/-- One counter-affecting operation of the discovery manager. -/
inductive DiscOp where
  | inc
  | dec
  | stop
deriving DecidableEq, Repr

/-- Apply one counter operation to the discovery state. -/
def applyDiscOp (s : DiscoveryState) : DiscOp → DiscoveryState
  | .inc => increment_discovery_count s
  | .dec => decrement_discovery_count s
  | .stop => stop_discovery_service s

/-! Helper lemmas. -/

/-- Membership in a conditional list splits on the condition. -/
lemma mem_ite_list {α : Type} (a : α) (b : Prop) [Decidable b]
    (l1 l2 : List α) :
    (a ∈ if b then l1 else l2) ↔ (b ∧ a ∈ l1) ∨ (¬b ∧ a ∈ l2) := by
  split <;> simp [*]

/-! Claim theorems. -/

/-- C1: in `environmental_property.__get__`, the sentinel raw value -1 yields
the derived status `"off"`, -2 yields `"init"`, -3 yields `"fail"`, and every
other raw value is returned unchanged; the mapping is a single function shared
by every sensor field that uses it. -/
theorem environmental_property_sentinels (v : Int)
    (h1 : v ≠ -1) (h2 : v ≠ -2) (h3 : v ≠ -3) :
    environmental_property_get (-1) = .status "off" ∧
    environmental_property_get (-2) = .status "init" ∧
    environmental_property_get (-3) = .status "fail" ∧
    environmental_property_get v = .value v := by
  refine ⟨rfl, rfl, rfl, ?_⟩
  simp [environmental_property_get, ENVIRONMENTAL_OFF, ENVIRONMENTAL_INIT,
    ENVIRONMENTAL_FAIL, h1, h2, h3]

theorem environmental_property_sentinels_witness :
    environmental_property_get 5 = .value 5 :=
  (environmental_property_sentinels 5 (by decide) (by decide) (by decide)).2.2.2

/-- C2: for every serial, credential and discovery outcome, `get_device` on a
vacuum-robot device type returns the fixed static-mapping result — the
matching vacuum subtype — independently of capability discovery. -/
theorem get_device_vacuum_static (disc : DiscoveryOutcome)
    (serial credential : String) :
    get_device disc serial credential "N223" =
      some (.Dyson360Eye serial credential) ∧
    get_device disc serial credential "276" =
      some (.Dyson360Heurist serial credential) ∧
    get_device disc serial credential "277" =
      some (.Dyson360VisNav serial credential) ∧
    get_device disc serial credential "N223" =
      create_device_static serial credential "N223" ∧
    get_device disc serial credential "276" =
      create_device_static serial credential "276" ∧
    get_device disc serial credential "277" =
      create_device_static serial credential "277" :=
  ⟨rfl, rfl, rfl, rfl, rfl, rfl⟩

/-- C3: for every non-vacuum device type, `get_device` returns the static
mapping result both when capability discovery raises and when it returns no
device. -/
theorem get_device_fallback (serial credential device_type msg : String)
    (h : ¬(device_type = DEVICE_TYPE_360_EYE ∨
           device_type = DEVICE_TYPE_360_HEURIST ∨
           device_type = DEVICE_TYPE_360_VIS_NAV)) :
    get_device (.raised msg) serial credential device_type =
      create_device_static serial credential device_type ∧
    get_device .noDevice serial credential device_type =
      create_device_static serial credential device_type := by
  constructor <;> simp [get_device, h]

theorem get_device_fallback_witness :
    get_device (.raised "mqtt timeout") "SER" "CRED" "438" =
      create_device_static "SER" "CRED" "438" ∧
    get_device .noDevice "SER" "CRED" "438" =
      create_device_static "SER" "CRED" "438" :=
  get_device_fallback "SER" "CRED" "438" "mqtt timeout" (by decide)

/-- C4: for every device-type string that appears in no branch of the static
mapping, `_create_device_static` returns `None`, for every serial and
credential. -/
theorem create_device_static_unknown_none (serial credential device_type : String)
    (h : device_type ∉ staticMappedTypes) :
    create_device_static serial credential device_type = none := by
  simp only [staticMappedTypes, List.mem_cons, List.not_mem_nil, or_false,
    not_or] at h
  obtain ⟨h1, h2, h3, h4, h5, h6, h7, h8, h9, h10, h11, h12, h13, h14, h15,
    h16, h17, h18, h19⟩ := h
  simp [create_device_static, h1, h2, h3, h4, h5, h6, h7, h8, h9, h10, h11,
    h12, h13, h14, h15, h16, h17, h18, h19]

theorem create_device_static_unknown_none_witness :
    create_device_static "SER" "CRED" "999" = none :=
  create_device_static_unknown_none "SER" "CRED" "999" (by decide)

set_option maxHeartbeats 1000000 in
/-- C8: the subtype selected by `_create_device_static` depends only on the
device-type string — any two calls with the same device type yield the same
subtype tag (or both yield `None`), whatever the serials and credentials. -/
theorem create_device_static_deterministic (device_type s1 c1 s2 c2 : String) :
    Option.map subtypeOf (create_device_static s1 c1 device_type) =
    Option.map subtypeOf (create_device_static s2 c2 device_type) := by
  unfold create_device_static
  split_ifs <;> rfl

/-- A concrete legacy Pure Cool Link device for the C5 witness. -/
def sampleLinkDevice : SensorDevice :=
  { is360Vacuum := false, isPureCoolLink := true, isBigQuiet := false,
    isBasicPurifierFan := false, isPurifierHumidifyCool := false,
    hasHumidity := true, hasTemperature := true, hasVoc := true,
    hasCarbonDioxide := false, carbonDioxideSome := false,
    hasPM25 := false, hasPM10 := false, hasNO2 := false,
    carbonFilterLifeIsNone := true, hasFormaldehyde := false,
    formaldehydeSome := false }

/-- C5: for every non-vacuum device the sensor platform exposes, when the
device is a legacy `DysonPureCoolLink`, filter life in hours plus a percentage
sensor whose value is `(filter_life / 4300) * 100`, and none of the
modern percentage sensors; when the device is modern (non-Link), no
hour-based or Link-percentage sensor, and filter life only as combined or as
carbon-plus-HEPA percentage sensors. -/
theorem filter_life_exposure (d : SensorDevice) (fl : ℚ)
    (hv : d.is360Vacuum = false) :
    (d.isPureCoolLink = true →
      SensorKind.filterLifeHours ∈ sensorEntities d ∧
      SensorKind.filterLifePercentage ∈ sensorEntities d ∧
      filterLifeSensorValue fl = fl ∧
      filterLifePercentageValue fl = (fl / 4300) * 100 ∧
      SensorKind.combinedFilterLife ∉ sensorEntities d ∧
      SensorKind.carbonFilterLife ∉ sensorEntities d ∧
      SensorKind.hepaFilterLife ∉ sensorEntities d) ∧
    (d.isPureCoolLink = false →
      SensorKind.filterLifeHours ∉ sensorEntities d ∧
      SensorKind.filterLifePercentage ∉ sensorEntities d ∧
      (SensorKind.combinedFilterLife ∈ sensorEntities d ∨
       (SensorKind.carbonFilterLife ∈ sensorEntities d ∧
        SensorKind.hepaFilterLife ∈ sensorEntities d))) := by
  constructor
  · intro hlink
    refine ⟨?_, ?_, rfl, rfl, ?_, ?_, ?_⟩ <;>
      simp [sensorEntities, hv, hlink, mem_ite_list]
  · intro hlink
    refine ⟨?_, ?_, ?_⟩
    · simp [sensorEntities, hv, hlink, mem_ite_list]
    · simp [sensorEntities, hv, hlink, mem_ite_list]
    · rcases hc : d.carbonFilterLifeIsNone with _ | _
      · right
        constructor <;> simp [sensorEntities, hv, hlink, hc, mem_ite_list]
      · left
        simp [sensorEntities, hv, hlink, hc, mem_ite_list]

theorem filter_life_exposure_witness :
    SensorKind.filterLifeHours ∈ sensorEntities sampleLinkDevice ∧
    SensorKind.filterLifePercentage ∈ sensorEntities sampleLinkDevice ∧
    filterLifeSensorValue 2150 = 2150 ∧
    filterLifePercentageValue 2150 = (2150 / 4300) * 100 ∧
    SensorKind.combinedFilterLife ∉ sensorEntities sampleLinkDevice ∧
    SensorKind.carbonFilterLife ∉ sensorEntities sampleLinkDevice ∧
    SensorKind.hepaFilterLife ∉ sensorEntities sampleLinkDevice :=
  (filter_life_exposure sampleLinkDevice 2150 rfl).1 rfl

/-- C6: the temperature sensor reports `t - 273.15` (Kelvin to Celsius) for
every device reading `t ≥ 0` and no value for every `t < 0`. -/
theorem temperature_sensor_value (t : ℚ) :
    (0 ≤ t → temperatureSensorValue t = some (t - 273.15)) ∧
    (t < 0 → temperatureSensorValue t = none) := by
  constructor <;> intro h
  · simp [temperatureSensorValue, ge_iff_le, h]
  · simp [temperatureSensorValue, ge_iff_le, not_le.mpr h]

theorem temperature_sensor_value_witness :
    (0 : ℚ) ≤ 300 ∧ temperatureSensorValue 300 = some (300 - 273.15) :=
  ⟨by norm_num, (temperature_sensor_value 300).1 (by norm_num)⟩

/-- Characterisation of `handle_unload_cleanup` on an explicit state. -/
lemma handle_unload_cleanup_eq (c : Int) (r : Bool) :
    handle_unload_cleanup ⟨c, r⟩ =
      if r = true ∧ max 0 (c - 1) ≤ 0 then ⟨0, false⟩
      else ⟨max 0 (c - 1), r⟩ := by
  cases r <;>
    simp [handle_unload_cleanup, decrement_discovery_count,
      stop_discovery_service]

/-- C7: the discovery lifecycle is reference-counted — `connect_with_discovery`
increments the usage count, `handle_unload_cleanup` decrements it, the shared
listener is stopped by an unload only when the count has reached zero, and
with at least one other active registration an unload never stops the running
listener. -/
theorem discovery_refcount (s : DiscoveryState) :
    (connect_with_discovery s).count = s.count + 1 ∧
    (1 ≤ s.count → (handle_unload_cleanup s).count = s.count - 1) ∧
    (s.serviceRunning = true → 2 ≤ s.count →
      (handle_unload_cleanup s).serviceRunning = true) ∧
    (s.serviceRunning = true →
      (handle_unload_cleanup s).serviceRunning = false → s.count ≤ 1) := by
  obtain ⟨c, r⟩ := s
  refine ⟨by cases r <;> rfl, ?_, ?_, ?_⟩
  · intro hc
    have hc1 : 1 ≤ c := hc
    rw [handle_unload_cleanup_eq]
    split_ifs with h
    · show (0 : Int) = c - 1
      have := h.2
      omega
    · show max 0 (c - 1) = c - 1
      omega
  · intro hr hc
    have hc2 : 2 ≤ c := hc
    rw [handle_unload_cleanup_eq]
    split_ifs with h
    · exfalso
      have := h.2
      omega
    · exact hr
  · intro hr hstop
    rw [handle_unload_cleanup_eq] at hstop
    show c ≤ 1
    split_ifs at hstop with h
    · have := h.2
      omega
    · simp at hstop
      simp [hstop] at hr

theorem discovery_refcount_witness :
    (handle_unload_cleanup ⟨2, true⟩).count = 1 ∧
    (handle_unload_cleanup ⟨2, true⟩).serviceRunning = true :=
  ⟨(discovery_refcount ⟨2, true⟩).2.1 (by decide),
   (discovery_refcount ⟨2, true⟩).2.2.1 rfl (by decide)⟩

/-- C9: `_on_message` schedules a state update exactly when the entity
`_MESSAGE_TYPE` is `None` or equals the incoming message type; in particular
an environmental sensor entity never updates on a STATE message and a STATE
entity never updates on an ENVIRONMENTAL message. -/
theorem on_message_filters (mt : Option MessageType) (incoming : MessageType) :
    (onMessageSchedules mt incoming = true ↔ (mt = none ∨ mt = some incoming)) ∧
    onMessageSchedules DysonSensorEnvironmentalMessageType .STATE = false ∧
    onMessageSchedules DysonSensorMessageType .ENVIRONMENTAL = false := by
  refine ⟨?_, rfl, rfl⟩
  cases mt with
  | none => simp [onMessageSchedules]
  | some t => simp [onMessageSchedules, eq_comm]

theorem on_message_filters_witness :
    onMessageSchedules (some .ENVIRONMENTAL) .ENVIRONMENTAL = true :=
  ((on_message_filters (some .ENVIRONMENTAL) .ENVIRONMENTAL).1).mpr
    (Or.inr rfl)

/-- C10: the discovery usage counter never goes negative — from any state with
a non-negative count, every sequence of increment, clamped decrement and stop
operations keeps the count non-negative. -/
theorem discovery_count_nonneg (ops : List DiscOp) (s : DiscoveryState)
    (h : 0 ≤ s.count) : 0 ≤ (ops.foldl applyDiscOp s).count := by
  induction ops generalizing s with
  | nil => exact h
  | cons op rest ih =>
    apply ih
    cases op with
    | inc =>
      simp only [applyDiscOp, increment_discovery_count]
      omega
    | dec =>
      simp only [applyDiscOp, decrement_discovery_count]
      omega
    | stop =>
      simp only [applyDiscOp, stop_discovery_service]
      omega

theorem discovery_count_nonneg_witness :
    (0 : Int) ≤ (⟨0, false⟩ : DiscoveryState).count ∧
    0 ≤ (([DiscOp.dec, DiscOp.inc, DiscOp.stop, DiscOp.dec].foldl
      applyDiscOp ⟨0, false⟩)).count :=
  ⟨by decide, discovery_count_nonneg _ _ (by decide)⟩

end DysonLocal
